import Mathlib

/-!
Verification of the generation-normalized GPU analytics core of the
Nvidias_Core-ner_Cutting repository: tier classification, flagship
resolution, metric normalization, economic adjustment, kernel-density
estimation and distribution summarization.  The definitions below are
shallow embeddings of the JavaScript source (App.jsx, CudaPlot,
DieAreaPlot.jsx, tier utility); JS numbers are modelled as rationals,
JS null/undefined as Option, and JS truthiness is modelled explicitly.
-/

/-! ## TierClassifier (getTierFromModel, App.jsx lines 21-51 and the tier
utility module) -/

/-- Uppercases a string character by character, as JS toUpperCase does on
the ASCII model names appearing in the data set. -/
def jsToUpper (s : String) : String := ⟨s.data.map Char.toUpper⟩

/-- Embeds the JS regex search for the first run of 2-4 digits in
the name, as performed by name.match of two to four digits in
getTierFromModel.  The regex engine scans left to right; it can only
start a successful match at the start of a maximal digit run, and a run
of length one is skipped (its single digit cannot begin a 2-digit
match, and scanning then resumes at the following non-digit). -/
def firstDigitRun : List Char → Option (List Char)
  | [] => none
  | c :: rest =>
    if c.isDigit then
      if 2 ≤ (c :: rest.takeWhile Char.isDigit).length then
        some ((c :: rest.takeWhile Char.isDigit).take 4)
      else firstDigitRun rest
    else firstDigitRun rest

/-- Decimal digits to a natural number, as JS parseInt with radix 10 on a
string of digit characters. -/
def digitsToNat (ds : List Char) : ℕ := ds.foldl (fun n c => n * 10 + (c.toNat - 48)) 0

/-- Threshold bucketing of the last-two-digit tier number in
getTierFromModel: 90/80/70/60/50/30 buckets, null below 30. -/
def baseTierOf (tierNum : ℕ) : Option String :=
  if 90 ≤ tierNum then some "90"
  else if 80 ≤ tierNum then some "80"
  else if 70 ≤ tierNum then some "70"
  else if 60 ≤ tierNum then some "60"
  else if 50 ≤ tierNum then some "50"
  else if 30 ≤ tierNum then some "30"
  else none

/-- Substring test on character lists; embeds JS String.includes. -/
def containsSeq (needle hay : List Char) : Bool :=
  hay.tails.any (fun t => needle.isPrefixOf t)

/-- Embedding of getTierFromModel (App.jsx lines 21-51; the same function
appears in the tier utility module): uppercase the name, find the first
run of 2-4 digits, bucket the last two digits into a base tier, and
append a Ti suffix when the uppercased name contains the substring
space-T-I. -/
def getTierFromModel (modelName : String) : Option String :=
  let name := jsToUpper modelName
  match firstDigitRun name.data with
  | none => none
  | some numStr =>
    match baseTierOf (digitsToNat (numStr.drop (numStr.length - 2))) with
    | none => none
    | some baseTier =>
      if containsSeq [' ', 'T', 'I'] name.data then some (baseTier ++ " Ti")
      else some baseTier

/-- Word characters in the JS regex sense (letters, digits, underscore),
used by the spec-side word-boundary predicate. -/
def isWordChar (c : Char) : Bool := c.isAlphanum || c == '_'

/-- Modelled from the spec words for comparison with the source: the name
contains the token TI at a word boundary (case-insensitive), meaning an
occurrence of T-I whose neighbours on both sides are absent or
non-word characters. -/
def specHasTiTokenAtWordBoundary (s : String) : Bool :=
  let cs := (jsToUpper s).data
  (List.range cs.length).any fun i =>
    (cs.getD i '?' == 'T') && (cs.getD (i + 1) '?' == 'I') && decide (i + 2 ≤ cs.length) &&
    (decide (i = 0) || !isWordChar (cs.getD (i - 1) '?')) &&
    (decide (i + 2 = cs.length) || !isWordChar (cs.getD (i + 2) '?'))

/-- Boolean test that a tier label carries the Ti suffix. -/
def endsWithTi (s : String) : Bool := (" Ti" : String).data.isSuffixOf s.data

theorem baseTierOf_cases (t : ℕ) (b : String) (h : baseTierOf t = some b) :
    b = "90" ∨ b = "80" ∨ b = "70" ∨ b = "60" ∨ b = "50" ∨ b = "30" := by
  unfold baseTierOf at h
  split_ifs at h <;> simp_all

theorem baseTierOf_below (t : ℕ) (h : t < 30) : baseTierOf t = none := by
  unfold baseTierOf
  split_ifs <;> first | rfl | omega

/-- Claim C7 counterexample: the name TI 4090 contains the token TI at a
word boundary (at the start of the string, followed by a space), so
under the claim the classifier should append the Ti suffix; the source
classifier requires the substring space-T-I and returns the bare tier
90 instead. -/
theorem c7_counterexample :
    specHasTiTokenAtWordBoundary "TI 4090" = true ∧
    getTierFromModel "TI 4090" = some "90" ∧
    getTierFromModel "TI 4090" ≠ some "90 Ti" := by
  refine ⟨by decide, by decide, by decide⟩

/-- Claim C7 (amended): for every model name the classifier labels, the
label carries the Ti suffix exactly when the uppercased name contains
the substring space-T-I (a space immediately followed by TI, with no
condition on what follows); a TI token at a word boundary without a
preceding space does not receive the suffix. -/
theorem c7_ti_suffix_iff_spaceTI (m t : String) (h : getTierFromModel m = some t) :
    endsWithTi t = containsSeq [' ', 'T', 'I'] (jsToUpper m).data := by
  simp only [getTierFromModel] at h
  cases hr : firstDigitRun (jsToUpper m).data with
  | none => rw [hr] at h; exact absurd h (by simp)
  | some run =>
    simp only [hr] at h
    cases hb : baseTierOf (digitsToNat (run.drop (run.length - 2))) with
    | none => rw [hb] at h; exact absurd h (by simp)
    | some b =>
      simp only [hb] at h
      rcases baseTierOf_cases _ _ hb with rfl | rfl | rfl | rfl | rfl | rfl <;>
        cases hcond : containsSeq [' ', 'T', 'I'] (jsToUpper m).data <;>
        rw [hcond] at h <;> simp only [if_true, if_false, Bool.false_eq_true,
          reduceIte, Option.some.injEq] at h <;> subst h <;> decide

/-- Claim C7 (amended) witness at the concrete name RTX 3090 Ti. -/
theorem c7_ti_suffix_iff_spaceTI_witness :
    endsWithTi "90 Ti" = containsSeq [' ', 'T', 'I'] (jsToUpper "RTX 3090 Ti").data :=
  c7_ti_suffix_iff_spaceTI "RTX 3090 Ti" "90 Ti" (by decide)

/-- Claim C8: the classifier returns 90 for RTX 4090, 90 Ti for
RTX 3090 Ti, 60 Ti for GTX 1660 Ti and null for Unknown Card; a name
with no 2-4 digit run, or whose last-two-digit tier falls below the
lowest (30) bucket, yields null. -/
theorem c8_classifier_examples :
    getTierFromModel "RTX 4090" = some "90" ∧
    getTierFromModel "RTX 3090 Ti" = some "90 Ti" ∧
    getTierFromModel "GTX 1660 Ti" = some "60 Ti" ∧
    getTierFromModel "Unknown Card" = none ∧
    (∀ m, firstDigitRun (jsToUpper m).data = none → getTierFromModel m = none) ∧
    (∀ m run, firstDigitRun (jsToUpper m).data = some run →
      digitsToNat (run.drop (run.length - 2)) < 30 → getTierFromModel m = none) := by
  refine ⟨by decide, by decide, by decide, by decide, ?_, ?_⟩
  · intro m hm
    simp only [getTierFromModel, hm]
  · intro m run hm hlt
    simp only [getTierFromModel, hm, baseTierOf_below _ hlt]

/-- Claim C8 witness for the two hypothesis-bearing parts: a name with no
digit run at all, and a name whose tier number 10 is below the 30
bucket, both classify to null. -/
theorem c8_classifier_examples_witness :
    getTierFromModel "Radeon VII" = none ∧ getTierFromModel "GT 1010" = none :=
  ⟨c8_classifier_examples.2.2.2.2.1 "Radeon VII" (by decide),
   c8_classifier_examples.2.2.2.2.2 "GT 1010" ['1', '0', '1', '0'] (by decide) (by decide)⟩

/-! ## Normalizer (normalizedCores, CudaPlot processing step) -/

/-- Embedding of the normalization expression in CudaPlot: cudaCores
divided by the flagship core count times 100 when the record has a core
count and the flagship count is positive, null otherwise. -/
def normalizedCores (cudaCores : Option ℚ) (flagshipCores : ℚ) : Option ℚ :=
  match cudaCores with
  | some c => if 0 < flagshipCores then some (c / flagshipCores * 100) else none
  | none => none

/-- Claim C1: normalization returns value over reference times 100 when
the value is present and the reference is positive, and null otherwise
(null value, or non-positive reference); the flagship itself, normalized
against its own positive core count, yields exactly 100. -/
theorem c1_normalizer (v F : ℚ) (hF : 0 < F) :
    normalizedCores (some v) F = some (v / F * 100) ∧
    normalizedCores (some F) F = some 100 ∧
    (∀ G, G ≤ 0 → normalizedCores (some v) G = none) ∧
    (∀ G, normalizedCores none G = none) := by
  refine ⟨by simp [normalizedCores, hF], ?_, ?_, fun G => rfl⟩
  · simp only [normalizedCores, hF, if_true, div_self hF.ne']
    norm_num
  · intro G hG
    simp [normalizedCores, not_lt.mpr hG]

/-- Claim C1 witness at value 50 and reference 200. -/
theorem c1_normalizer_witness :
    normalizedCores (some 50) 200 = some (50 / 200 * 100) ∧
    normalizedCores (some 200) 200 = some 100 ∧
    (∀ G, G ≤ 0 → normalizedCores (some 50) G = none) ∧
    (∀ G, normalizedCores none G = none) :=
  c1_normalizer 50 200 (by norm_num)

/-! ## FlagshipResolver (CudaPlot flagship selection and fallback; this
models the generic per-series path, i.e. every series other than the
cross-referenced 1600 series) -/

/-- GPU record fields used by flagship resolution.  cudaCores is null
when the data set has no core count for the card. -/
structure GpuRec where
  model : String
  series : String
  cudaCores : Option ℚ
  flagship : Bool
  specialFlagship : Bool
deriving Repr, DecidableEq

/-- Validity test applied by CudaPlot to a flagship candidate: the core
count must be present and positive (cudaCores not null, not ≤ 0). -/
def validCores : Option ℚ → Bool
  | some c => decide (0 < c)
  | none => false

/-- Core count with null coerced to 0, as in the JS fallback comparator
expression (b.cudaCores or 0) minus (a.cudaCores or 0). -/
def metric0 (r : GpuRec) : ℚ := r.cudaCores.getD 0

/-- Flagship choice before validity checking: the special flagship when
the toggle is set and one exists, otherwise the record marked flagship
(models useSpecial = specialFlagshipActive and specialFlagship, then
flagship = useSpecial ? specialFlagship : regularFlagship). -/
def chooseFlagship (records : List GpuRec) (useSpecial : Bool) : Option GpuRec :=
  let specialFlagship := records.find? (fun r => r.specialFlagship)
  if useSpecial && specialFlagship.isSome then specialFlagship
  else records.find? (fun r => r.flagship)

/-- One comparison step of the descending stable sort-by-metric whose
first element the fallback takes: keep the earlier record unless the
later one has a strictly larger null-coerced core count. -/
def pickMax (best x : GpuRec) : GpuRec := if metric0 best < metric0 x then x else best

/-- First element of the series records stably sorted by descending
null-coerced core count, i.e. the earliest record attaining the maximum
metric; none for an empty series. -/
def fallbackMax : List GpuRec → Option GpuRec
  | [] => none
  | r :: rs => some (rs.foldl pickMax r)

/-- Test mirroring the JS guard: no flagship found, or its cudaCores is
null or non-positive. -/
def flagshipInvalid (o : Option GpuRec) : Bool :=
  match o with
  | none => true
  | some f => !validCores f.cudaCores

/-- Embedding of the CudaPlot flagship resolution for a series: choose
the explicit (or special) flagship; if that choice is missing or has an
invalid core count, fall back to the record with the maximum
null-coerced core count; if the fallback is also invalid the series is
skipped (none). -/
def resolveFlagship (records : List GpuRec) (useSpecial : Bool) : Option GpuRec :=
  let flagship := chooseFlagship records useSpecial
  if flagshipInvalid flagship then
    match fallbackMax records with
    | some fb => if validCores fb.cudaCores then some fb else none
    | none => none
  else flagship

theorem foldl_pickMax_mem (rs : List GpuRec) : ∀ r : GpuRec, rs.foldl pickMax r ∈ r :: rs := by
  induction rs with
  | nil => intro r; simp
  | cons x xs ih =>
    intro r
    simp only [List.foldl_cons]
    rcases List.mem_cons.mp (ih (pickMax r x)) with h | h
    · by_cases hc : metric0 r < metric0 x
      · rw [h]; simp only [pickMax, if_pos hc]
        exact List.mem_cons_of_mem _ (List.mem_cons_self _ _)
      · rw [h]; simp only [pickMax, if_neg hc]
        exact List.mem_cons_self _ _
    · exact List.mem_cons_of_mem _ (List.mem_cons_of_mem _ h)

theorem le_foldl_pickMax (rs : List GpuRec) :
    ∀ r : GpuRec, ∀ a ∈ r :: rs, metric0 a ≤ metric0 (rs.foldl pickMax r) := by
  induction rs with
  | nil =>
    intro r a ha
    rcases List.mem_cons.mp ha with rfl | h
    · simp
    · cases h
  | cons x xs ih =>
    intro r a ha
    simp only [List.foldl_cons]
    have hr : metric0 r ≤ metric0 (pickMax r x) := by
      simp only [pickMax]; split_ifs with hc
      · exact le_of_lt hc
      · exact le_refl _
    have hx : metric0 x ≤ metric0 (pickMax r x) := by
      simp only [pickMax]; split_ifs with hc
      · exact le_refl _
      · exact not_lt.mp hc
    have hhead : metric0 (pickMax r x) ≤ metric0 (xs.foldl pickMax (pickMax r x)) :=
      ih (pickMax r x) _ (List.mem_cons_self _ _)
    rcases List.mem_cons.mp ha with rfl | ha2
    · exact le_trans hr hhead
    · rcases List.mem_cons.mp ha2 with rfl | ha3
      · exact le_trans hx hhead
      · exact ih (pickMax r x) a (List.mem_cons_of_mem _ ha3)

theorem metric0_pos_iff (r : GpuRec) : 0 < metric0 r ↔ validCores r.cudaCores = true := by
  cases h : r.cudaCores with
  | none => simp [metric0, h, validCores]
  | some c => simp [metric0, h, validCores]

/-- Claim C2: when the chosen (explicit or special) flagship is missing
or has an invalid metric, resolution falls back to a record of the
series attaining the maximum null-coerced metric (provided some record
has a valid positive metric), and when no record at all has a valid
positive metric, or the series is empty, resolution returns none
(series excluded) rather than failing. -/
theorem c2_flagship_fallback (records : List GpuRec) (useSpecial : Bool)
    (hchosen : ∀ f, chooseFlagship records useSpecial = some f →
      validCores f.cudaCores = false) :
    ((∀ r ∈ records, validCores r.cudaCores = false) →
      resolveFlagship records useSpecial = none) ∧
    (∀ v ∈ records, validCores v.cudaCores = true →
      ∃ m, resolveFlagship records useSpecial = some m ∧ m ∈ records ∧
        validCores m.cudaCores = true ∧ ∀ r ∈ records, metric0 r ≤ metric0 m) := by
  have hinv : flagshipInvalid (chooseFlagship records useSpecial) = true := by
    cases hc : chooseFlagship records useSpecial with
    | none => rfl
    | some f => simp [flagshipInvalid, hchosen f hc]
  simp only [resolveFlagship, hinv, if_true]
  cases records with
  | nil =>
    constructor
    · intro _; rfl
    · intro v hv; cases hv
  | cons r rs =>
    constructor
    · intro hall
      have hfb : validCores (rs.foldl pickMax r).cudaCores = false :=
        hall _ (foldl_pickMax_mem rs r)
      simp [fallbackMax, hfb]
    · intro v hv hvval
      have hpos : 0 < metric0 v := (metric0_pos_iff v).mpr hvval
      have hle := le_foldl_pickMax rs r v hv
      have hmval : validCores (rs.foldl pickMax r).cudaCores = true :=
        (metric0_pos_iff _).mp (lt_of_lt_of_le hpos hle)
      exact ⟨rs.foldl pickMax r, by simp [fallbackMax, hmval], foldl_pickMax_mem rs r,
        hmval, fun a ha => le_foldl_pickMax rs r a ha⟩

/-- Concrete series for the C2 witness: an explicit flagship with a null
core count, plus two valid cards of which the 448-core one is the
maximum. -/
def recA : GpuRec := ⟨"GTX 480", "400", none, true, false⟩

def recB : GpuRec := ⟨"GTX 470", "400", some 448, false, false⟩

def recC : GpuRec := ⟨"GTX 465", "400", some 352, false, false⟩

def recD : GpuRec := ⟨"GT 710", "700", some 0, false, false⟩

/-- Claim C2 witness: with the explicit flagship invalid (null cores),
resolution still returns a valid maximal record; and a series whose only
record has zero cores resolves to none. -/
theorem c2_flagship_fallback_witness :
    (validCores recB.cudaCores = true ∧
      resolveFlagship [recA, recB, recC] false ≠ none) ∧
    resolveFlagship [recD] false = none := by
  constructor
  · have h := (c2_flagship_fallback [recA, recB, recC] false (by
      intro f hf
      rw [show chooseFlagship [recA, recB, recC] false = some recA from rfl] at hf
      cases hf
      rfl)).2 recB (by simp) (by decide)
    obtain ⟨m, hm, _⟩ := h
    exact ⟨by decide, by rw [hm]; simp⟩
  · exact (c2_flagship_fallback [recD] false (by
      intro f hf
      rw [show chooseFlagship [recD] false = none from rfl] at hf
      cases hf)).1 (by decide)

/-! ## EconomicAdjuster (getAdjustmentMultiplier, DieAreaPlot.jsx) -/

/-- JS or-default on an optional number: null and 0 both fall through to
the default (JS truthiness of the left operand). -/
def jsOr (o : Option ℚ) (dflt : ℚ) : ℚ :=
  match o with
  | some x => if x = 0 then dflt else x
  | none => dflt

/-- JS truthiness of an optional number: present and non-zero. -/
def jsTruthy (o : Option ℚ) : Bool :=
  match o with
  | some x => decide (x ≠ 0)
  | none => false

/-- Economic datasets consumed by getAdjustmentMultiplier: the median
real-wage table, the CPI index table, the precomputed CPI multiplier
table (all keyed by year strings and sparse) and the CPI base year. -/
structure EconData where
  realWage : String → Option ℚ
  cpiData : String → Option ℚ
  cpiMultipliers : String → Option ℚ
  baseYear : String

/-- Label built by the CPI branch from the inflation data base year. -/
def cpiAdjLabel (baseYear : String) : String := "CPI Adj. (to " ++ baseYear ++ ")"

/-- Embedding of getAdjustmentMultiplier: four toggle modes with JS
truthiness checks on the sparse table lookups; the result is the price
multiplier together with the adjustment-type label string. -/
def getAdjustmentMultiplier (useCpiAdjustment useRealWageScaling : Bool)
    (data : EconData) (year : String) : ℚ × String :=
  let baseRealWage := jsOr (data.realWage "2024") 373
  let baseCPI := jsOr (data.cpiData "2024") (3132 / 10)
  let yearRealWage := data.realWage year
  let yearCPI := data.cpiData year
  let cpiMultiplier := data.cpiMultipliers year
  let baseNominalWage := baseRealWage * (baseCPI / 100)
  let yearNominalWage : Option ℚ :=
    if jsTruthy yearRealWage && jsTruthy yearCPI then
      some (yearRealWage.getD 0 * (yearCPI.getD 0 / 100))
    else none
  if useCpiAdjustment && useRealWageScaling then
    if jsTruthy yearRealWage && decide (baseRealWage ≠ 0) &&
        decide (0 < yearRealWage.getD 0) then
      (baseRealWage / yearRealWage.getD 0, "Real Wage (to 2024)")
    else (1, "Nominal (Wage Data Missing)")
  else if useCpiAdjustment && !useRealWageScaling then
    if jsTruthy cpiMultiplier then (cpiMultiplier.getD 0, cpiAdjLabel data.baseYear)
    else (1, "Nominal")
  else if !useCpiAdjustment && useRealWageScaling then
    if jsTruthy yearNominalWage && decide (baseNominalWage ≠ 0) &&
        decide (0 < yearNominalWage.getD 0) then
      (baseNominalWage / yearNominalWage.getD 0, "Nominal Wage (to 2024)")
    else (1, "Nominal (Wage Data Missing)")
  else (1, "Nominal")

/-- Economic dataset with no entries at all, for the C3 counterexample. -/
def emptyEcon : EconData :=
  ⟨fun _ => none, fun _ => none, fun _ => none, "2023"⟩

/-- Claim C3 counterexample: with the CPI toggle alone enabled and no CPI
multiplier entry for 2010, the function returns multiplier 1 labelled
with the plain Nominal kind, identical to the kind returned with both
toggles off, and distinct from the degraded data-missing label used by
the wage branches; the claim asserted a degraded, non-plain label. -/
theorem c3_counterexample :
    getAdjustmentMultiplier true false emptyEcon "2010" = (1, "Nominal") ∧
    getAdjustmentMultiplier false false emptyEcon "2010" = (1, "Nominal") ∧
    ("Nominal" : String) ≠ "Nominal (Wage Data Missing)" := by
  refine ⟨?_, ?_, by decide⟩ <;> rfl

/-- Claim C3 (amended): for every dataset and year, when only the CPI
toggle is enabled and the CPI multiplier table has no (truthy) entry for
that year, the function falls back to multiplier 1 with the plain
Nominal label — the same kind as the unadjusted mode — rather than a
degraded data-missing label. -/
theorem c3_cpi_missing_nominal (data : EconData) (year : String)
    (h : jsTruthy (data.cpiMultipliers year) = false) :
    getAdjustmentMultiplier true false data year = (1, "Nominal") ∧
    getAdjustmentMultiplier false false data year = (1, "Nominal") := by
  constructor
  · simp only [getAdjustmentMultiplier, h]
    rfl
  · rfl

/-- Claim C3 (amended) witness on the empty dataset at year 2010. -/
theorem c3_cpi_missing_nominal_witness :
    getAdjustmentMultiplier true false emptyEcon "2010" = (1, "Nominal") ∧
    getAdjustmentMultiplier false false emptyEcon "2010" = (1, "Nominal") :=
  c3_cpi_missing_nominal emptyEcon "2010" rfl

/-! ## Effective die size (DieAreaPlot.jsx record processing) -/

/-- Embedding of the effective die size computation: full core count and
actual core count default to 0 when missing; the utilization ratio is
actual over full when full is positive, else 1; the effective die size
is the full area scaled by a fixed 30 percent floor plus a 70 percent
linear part. -/
def effectiveDieSize (dieSizeMM2 : ℚ) (fullCudaCoresOpt cudaCoresOpt : Option ℚ) : ℚ :=
  let fullCudaCores := jsOr fullCudaCoresOpt 0
  let actualCudaCores := jsOr cudaCoresOpt 0
  let dieUtilizationRatio :=
    if 0 < fullCudaCores then actualCudaCores / fullCudaCores else 1
  dieSizeMM2 * (3 / 10 + 7 / 10 * dieUtilizationRatio)

/-- Claim C10: with positive full core count and die area, and an actual
core count between 0 and the full count, the effective die size equals
the area scaled by 30 percent plus 70 percent of the utilization ratio,
hence lies between 30 percent and 100 percent of the full area, so the
effective price per square millimetre is at least the full-die price;
with the full count missing or zero the ratio defaults to 1 and the
effective size equals the full area. -/
theorem c10_effective_die_size (dieSize full actual : ℚ)
    (hdie : 0 < dieSize) (hfull : 0 < full) (h0 : 0 ≤ actual) (hle : actual ≤ full) :
    effectiveDieSize dieSize (some full) (some actual) =
      dieSize * (3 / 10 + 7 / 10 * (actual / full)) ∧
    3 / 10 * dieSize ≤ effectiveDieSize dieSize (some full) (some actual) ∧
    effectiveDieSize dieSize (some full) (some actual) ≤ dieSize ∧
    (∀ msrp : ℚ, 0 ≤ msrp →
      msrp / dieSize ≤ msrp / effectiveDieSize dieSize (some full) (some actual)) ∧
    (∀ ds cc, effectiveDieSize ds none cc = ds) ∧
    (∀ ds cc, effectiveDieSize ds (some 0) cc = ds) := by
  have heq : effectiveDieSize dieSize (some full) (some actual) =
      dieSize * (3 / 10 + 7 / 10 * (actual / full)) := by
    simp only [effectiveDieSize, jsOr]
    rw [if_neg hfull.ne', if_pos hfull]
    by_cases ha : actual = 0
    · subst ha; norm_num
    · rw [if_neg ha]
  have hr0 : 0 ≤ actual / full := div_nonneg h0 hfull.le
  have hr1 : actual / full ≤ 1 := (div_le_one hfull).mpr hle
  have hlow : 3 / 10 * dieSize ≤ effectiveDieSize dieSize (some full) (some actual) := by
    rw [heq]; nlinarith
  have hhigh : effectiveDieSize dieSize (some full) (some actual) ≤ dieSize := by
    rw [heq]; nlinarith
  have heffpos : 0 < effectiveDieSize dieSize (some full) (some actual) :=
    lt_of_lt_of_le (by nlinarith) hlow
  refine ⟨heq, hlow, hhigh, ?_, ?_, ?_⟩
  · intro msrp hm
    rcases eq_or_lt_of_le hm with rfl | hmpos
    · simp
    · exact (div_le_div_iff_of_pos_left hmpos hdie heffpos).mpr hhigh
  · intro ds cc
    simp only [effectiveDieSize, jsOr]
    norm_num
  · intro ds cc
    simp only [effectiveDieSize, jsOr]
    norm_num

/-- Claim C10 witness at a 600 square-millimetre die with 8192 of 16384
cores enabled. -/
theorem c10_effective_die_size_witness :
    effectiveDieSize 600 (some 16384) (some 8192) =
      600 * (3 / 10 + 7 / 10 * (8192 / 16384)) ∧
    3 / 10 * 600 ≤ effectiveDieSize 600 (some 16384) (some 8192) ∧
    effectiveDieSize 600 (some 16384) (some 8192) ≤ 600 ∧
    (∀ msrp : ℚ, 0 ≤ msrp →
      msrp / 600 ≤ msrp / effectiveDieSize 600 (some 16384) (some 8192)) ∧
    (∀ ds cc, effectiveDieSize ds none cc = ds) ∧
    (∀ ds cc, effectiveDieSize ds (some 0) cc = ds) :=
  c10_effective_die_size 600 16384 8192 (by norm_num) (by norm_num) (by norm_num)
    (by norm_num)

/-! ## DistributionSummarizer (violin box stats, DieAreaPlot.jsx) -/

/-- One step of the d3 min/max fold over a list: the accumulator starts
absent and afterwards holds the running extremum. -/
def d3step (g : ℚ → ℚ → ℚ) (acc : Option ℚ) (x : ℚ) : Option ℚ :=
  some (match acc with | none => x | some m => g m x)

/-- d3 minimum of a list of numbers: none on the empty list. -/
def d3min (xs : List ℚ) : Option ℚ := xs.foldl (d3step min) none

/-- d3 maximum of a list of numbers: none on the empty list. -/
def d3max (xs : List ℚ) : Option ℚ := xs.foldl (d3step max) none

/-- Embedding of d3 quantile applied to an already sorted list, as the
stats block does: undefined on empty input; the minimum when p ≤ 0 or
fewer than 2 values; the maximum when p ≥ 1; otherwise linear
interpolation between the two values bracketing index (n-1)p. -/
def quantileSorted (xs : List ℚ) (p : ℚ) : Option ℚ :=
  if xs.length = 0 then none
  else if p ≤ 0 ∨ xs.length < 2 then d3min xs
  else if 1 ≤ p then d3max xs
  else
    let i : ℚ := ((xs.length : ℚ) - 1) * p
    let i0 : ℤ := ⌊i⌋
    let v0 := xs.getD i0.toNat 0
    let v1 := xs.getD (i0.toNat + 1) 0
    some (v0 + (v1 - v0) * (i - (i0 : ℚ)))

/-- Ascending stable sort, as the JS sort with the d3 ascending
comparator. -/
def jsSortAsc (xs : List ℚ) : List ℚ := xs.insertionSort (· ≤ ·)

/-- Result shape of the violin stats block: min, quartiles, median, max,
with the quartiles undefined below 3 samples. -/
structure SummaryStats where
  min : Option ℚ
  q1 : Option ℚ
  median : Option ℚ
  q3 : Option ℚ
  max : Option ℚ
deriving Repr, DecidableEq

/-- Embedding of the stats object built for the violin inner box: sort
the valid prices ascending; min, median (d3 median is the 0.5
quantile) and max always, quartiles only with at least 3 samples. -/
def summarize (validPrices : List ℚ) : SummaryStats :=
  let sortedPrices := jsSortAsc validPrices
  { min := d3min sortedPrices
    q1 := if 3 ≤ sortedPrices.length then quantileSorted sortedPrices (1 / 4) else none
    median := quantileSorted sortedPrices (1 / 2)
    q3 := if 3 ≤ sortedPrices.length then quantileSorted sortedPrices (3 / 4) else none
    max := d3max sortedPrices }

theorem d3foldl_isSome (g : ℚ → ℚ → ℚ) (l : List ℚ) :
    ∀ m : ℚ, (l.foldl (d3step g) (some m)).isSome = true := by
  induction l with
  | nil => intro m; rfl
  | cons b bs ih => intro m; exact ih (g m b)

theorem d3min_isSome (xs : List ℚ) (h : xs ≠ []) : (d3min xs).isSome = true := by
  cases xs with
  | nil => exact absurd rfl h
  | cons a l => exact d3foldl_isSome min l a

theorem d3max_isSome (xs : List ℚ) (h : xs ≠ []) : (d3max xs).isSome = true := by
  cases xs with
  | nil => exact absurd rfl h
  | cons a l => exact d3foldl_isSome max l a

theorem quantileSorted_isSome (xs : List ℚ) (p : ℚ) (h : xs ≠ []) :
    (quantileSorted xs p).isSome = true := by
  have hlen : ¬ xs.length = 0 := by simpa [List.length_eq_zero] using h
  unfold quantileSorted
  rw [if_neg hlen]
  split_ifs with h1 h2
  · exact d3min_isSome xs h
  · exact d3max_isSome xs h
  · rfl

theorem jsSortAsc_length (xs : List ℚ) : (jsSortAsc xs).length = xs.length :=
  (List.perm_insertionSort _ xs).length_eq

theorem jsSortAsc_ne_nil (xs : List ℚ) (h : xs ≠ []) : jsSortAsc xs ≠ [] := by
  intro h0
  have hl : (jsSortAsc xs).length = 0 := by rw [h0]; rfl
  rw [jsSortAsc_length] at hl
  exact h (List.length_eq_zero.mp hl)

/-- Claim C6: the summarizer yields min, median and max for every
nonempty sample list; the quartiles are undefined below 3 samples and
defined (by linear interpolation) from 3 samples on; on the singleton 5
it yields min, median and max 5 with undefined quartiles, and on
1,2,3,4,5 it yields the interpolated quartiles 2 and 4 with median 3. -/
theorem c6_summarizer (samples : List ℚ) (hne : samples ≠ []) :
    ((summarize samples).min.isSome = true ∧
      (summarize samples).median.isSome = true ∧
      (summarize samples).max.isSome = true) ∧
    (samples.length < 3 →
      (summarize samples).q1 = none ∧ (summarize samples).q3 = none) ∧
    (3 ≤ samples.length →
      (summarize samples).q1.isSome = true ∧ (summarize samples).q3.isSome = true) ∧
    summarize [5] = ⟨some 5, none, some 5, none, some 5⟩ ∧
    summarize [1, 2, 3, 4, 5] = ⟨some 1, some 2, some 3, some 4, some 5⟩ := by
  have hsne := jsSortAsc_ne_nil samples hne
  refine ⟨⟨?_, ?_, ?_⟩, ?_, ?_, ?_, ?_⟩
  · simp only [summarize]
    exact d3min_isSome _ hsne
  · simp only [summarize]
    exact quantileSorted_isSome _ _ hsne
  · simp only [summarize]
    exact d3max_isSome _ hsne
  · intro h3
    constructor <;> simp only [summarize] <;>
      rw [if_neg (by rw [jsSortAsc_length]; omega)]
  · intro h3
    constructor <;> simp only [summarize] <;>
      rw [if_pos (by rw [jsSortAsc_length]; omega)] <;>
      exact quantileSorted_isSome _ _ hsne
  · have hs : jsSortAsc [5] = [5] := by decide
    simp only [summarize, hs]
    norm_num [quantileSorted, d3min, d3max, d3step]
  · have hs : jsSortAsc [1, 2, 3, 4, 5] = [1, 2, 3, 4, 5] := by decide
    simp only [summarize, hs]
    norm_num [quantileSorted, d3min, d3max, d3step]
    decide

/-- Claim C6 witness at the two-sample list 7, 3. -/
theorem c6_summarizer_witness :
    ((summarize [7, 3]).min.isSome = true ∧
      (summarize [7, 3]).median.isSome = true ∧
      (summarize [7, 3]).max.isSome = true) ∧
    (([7, 3] : List ℚ).length < 3 →
      (summarize [7, 3]).q1 = none ∧ (summarize [7, 3]).q3 = none) ∧
    (3 ≤ ([7, 3] : List ℚ).length →
      (summarize [7, 3]).q1.isSome = true ∧ (summarize [7, 3]).q3.isSome = true) ∧
    summarize [5] = ⟨some 5, none, some 5, none, some 5⟩ ∧
    summarize [1, 2, 3, 4, 5] = ⟨some 1, some 2, some 3, some 4, some 5⟩ :=
  c6_summarizer [7, 3] (by decide)

/-! ## DensityEstimator (violin KDE block of DieAreaPlot.jsx) -/

/-- Mean of a list of numbers as d3 computes it on the nonempty lists
arising in the KDE block: sum over count. -/
def d3meanQ (xs : List ℚ) : ℚ := xs.sum / xs.length

/-- Sample variance with the n minus 1 denominator, the square of the d3
standard deviation used for the KDE bandwidth; the deviation itself is
irrational in general, so theorems characterize it as the nonnegative
square root of this value. -/
def sampleVariance (xs : List ℚ) : ℚ :=
  (xs.map (fun x => (x - d3meanQ xs) ^ 2)).sum / ((xs.length : ℚ) - 1)

/-- Embedding of the KDE bandwidth: Math.max of the 0.1 floor and the
standard deviation times 1.5. -/
def kdeBandwidth (stdDev : ℚ) : ℚ := max (1 / 10) (stdDev * (3 / 2))

/-- Primary axis maximum: the ceiling of 1.1 times the maximum display
price over all processed records, with the JS or-default of 5 when the
data is empty or the maximum is 0. -/
def yMaxGpuOf (prices : List ℚ) : ℚ := (⌈(jsOr (d3max prices) 5) * (11 / 10)⌉ : ℤ)

/-- Lower end of the KDE evaluation range: Math.max of 0 and the group
minimum (or-default 0) minus twice the bandwidth. -/
def kdeRangeStart (bandwidth : ℚ) (validPrices : List ℚ) : ℚ :=
  max 0 (jsOr (d3min validPrices) 0 - bandwidth * 2)

/-- Upper end of the KDE evaluation range: Math.min of the primary axis
maximum and the group maximum (or-default the axis maximum) plus twice
the bandwidth, i.e. the end is clamped to the chart maximum. -/
def kdeRangeEnd (bandwidth yMaxGpu : ℚ) (validPrices : List ℚ) : ℚ :=
  min yMaxGpu (jsOr (d3max validPrices) yMaxGpu + bandwidth * 2)

/-- The d3 range generator for a positive step: start, start plus step,
and so on, with ceil((stop-start)/step) points; the KDE block only ever
calls it with a nonnegative step, and a zero step yields the empty list
(matching the NaN-count guard in d3). -/
def d3range (start stop step : ℚ) : List ℚ :=
  if 0 < step then
    List.map (fun i : ℕ => start + (i : ℚ) * step) (List.range (⌈(stop - start) / step⌉.toNat))
  else []

/-- Fixed evaluation resolution of the KDE block. -/
def numPointsKDE : ℕ := 100

/-- Raw evaluation grid of the KDE block: the d3 range over the clamped
interval with step a hundredth of its width. -/
def kdeYValuesRaw (bandwidth yMaxGpu : ℚ) (validPrices : List ℚ) : List ℚ :=
  d3range (kdeRangeStart bandwidth validPrices) (kdeRangeEnd bandwidth yMaxGpu validPrices)
    ((kdeRangeEnd bandwidth yMaxGpu validPrices - kdeRangeStart bandwidth validPrices) /
      (numPointsKDE : ℚ))

/-- Synthetic fallback grid used when the raw grid has fewer than 2
points: the distinct values among mean minus 1 (floored at 0), mean and
mean plus 1 (capped at the axis maximum), sorted ascending; the JS mean
or-default puts the axis midpoint in place of a zero or missing mean. -/
def syntheticYValues (yMaxGpu : ℚ) (validPrices : List ℚ) : List ℚ :=
  let meanPrice := jsOr (some (d3meanQ validPrices)) (yMaxGpu / 2)
  jsSortAsc ([max 0 (meanPrice - 1), meanPrice, min yMaxGpu (meanPrice + 1)].dedup)

/-- Evaluation grid with the synthetic fallback applied. -/
def kdeYValues (bandwidth yMaxGpu : ℚ) (validPrices : List ℚ) : List ℚ :=
  if (kdeYValuesRaw bandwidth yMaxGpu validPrices).length < 2 then
    syntheticYValues yMaxGpu validPrices
  else kdeYValuesRaw bandwidth yMaxGpu validPrices

/-- Embedding of kernelEpanechnikov: the JS body rebinds v to v divided
by the bandwidth k and returns 0.75 times (1 - v*v)/k inside the unit
window, 0 outside. -/
def kernelEpanechnikov (k : ℚ) (v : ℚ) : ℚ :=
  if |v / k| ≤ 1 then 3 / 4 * (1 - v / k * (v / k)) / k else 0

/-- Density at one evaluation point: the d3 mean over the samples of the
kernel applied to the offset from the point. -/
def densityAt (bandwidth : ℚ) (samples : List ℚ) (x : ℚ) : ℚ :=
  d3meanQ (samples.map (fun v => kernelEpanechnikov bandwidth (x - v)))

/-- Embedding of kernelDensityEstimator applied to the evaluation grid:
each grid point paired with its estimated density. -/
def densityCurve (bandwidth : ℚ) (yValues samples : List ℚ) : List (ℚ × ℚ) :=
  yValues.map (fun x => (x, densityAt bandwidth samples x))

/-- Maximum density over the curve with the JS or-default 0.001 for an
empty or all-zero curve. -/
def rawMaxDensity (curve : List (ℚ × ℚ)) : ℚ :=
  jsOr (d3max (curve.map (fun d => d.2))) (1 / 1000)

/-- Density cut-off: 1 percent of the curve maximum. -/
def densityThreshold (curve : List (ℚ × ℚ)) : ℚ := rawMaxDensity curve * (1 / 100)

/-- Evaluation points surviving the threshold filter. -/
def filteredDensityPoints (curve : List (ℚ × ℚ)) : List (ℚ × ℚ) :=
  curve.filter (fun d => densityThreshold curve ≤ d.2)

/-- Embedding of the per-group KDE pipeline of the violin block: require
at least 2 valid prices, a positive bandwidth (always true of the
floored bandwidth), at least 2 grid points after the synthetic
fallback, and at least 2 surviving density points; otherwise the group
is skipped (none).  The bandwidth enters as the standard deviation
parameter stdDev, characterized against sampleVariance in the
theorems. -/
def estimateDensity (stdDev yMaxGpu : ℚ) (validPrices : List ℚ) : Option (List (ℚ × ℚ)) :=
  if validPrices.length < 2 then none
  else if kdeBandwidth stdDev ≤ 0 then none
  else if (kdeYValues (kdeBandwidth stdDev) yMaxGpu validPrices).length < 2 then none
  else if (filteredDensityPoints (densityCurve (kdeBandwidth stdDev)
      (kdeYValues (kdeBandwidth stdDev) yMaxGpu validPrices) validPrices)).length < 2 then
    none
  else
    some (filteredDensityPoints (densityCurve (kdeBandwidth stdDev)
      (kdeYValues (kdeBandwidth stdDev) yMaxGpu validPrices) validPrices))

/-- Modelled from the spec words for comparison with the source: the
density at x is the mean over samples s of 0.75 times (1 - u squared)
over the bandwidth, for u the normalized offset (x - s) over the
bandwidth when its absolute value is at most 1, else 0. -/
def specDensityAt (bandwidth x : ℚ) (samples : List ℚ) : ℚ :=
  (samples.map (fun s =>
    if |(x - s) / bandwidth| ≤ 1 then
      3 / 4 * (1 - ((x - s) / bandwidth) ^ 2) / bandwidth
    else 0)).sum / (samples.length : ℚ)

theorem kdeBandwidth_pos (sd : ℚ) : 0 < kdeBandwidth sd :=
  lt_of_lt_of_le (by norm_num) (le_max_left _ _)

theorem d3range_length (start stop : ℚ) (h : start < stop) :
    (d3range start stop ((stop - start) / (numPointsKDE : ℚ))).length = numPointsKDE := by
  have hd : (0 : ℚ) < stop - start := by linarith
  have hstep : 0 < (stop - start) / (numPointsKDE : ℚ) :=
    div_pos hd (by norm_num [numPointsKDE])
  unfold d3range
  rw [if_pos hstep, List.length_map, List.length_range]
  have hq : (stop - start) / ((stop - start) / (numPointsKDE : ℚ)) = (numPointsKDE : ℚ) := by
    field_simp
  rw [hq]
  norm_num [numPointsKDE]
  decide

theorem exampleVariance : (2 : ℚ) ^ 2 = sampleVariance [0, 0, 0, 4] := by
  norm_num [sampleVariance, d3meanQ]

theorem exampleBandwidth : kdeBandwidth 2 = 3 := by
  norm_num [kdeBandwidth]

theorem exampleDMin : d3min [0, 0, 0, 4] = some 0 := by decide

theorem exampleDMax : d3max [0, 0, 0, 4] = some 4 := by decide

theorem exampleYMax : yMaxGpuOf [0, 0, 0, 4] = 5 := by
  rw [yMaxGpuOf, exampleDMax]
  rw [show jsOr (some (4 : ℚ)) 5 = 4 by norm_num [jsOr]]
  rw [show (⌈(4 : ℚ) * (11 / 10)⌉ : ℤ) = 5 by rw [Int.ceil_eq_iff] <;> norm_num]
  norm_num

theorem exampleRangeStart : kdeRangeStart 3 [0, 0, 0, 4] = 0 := by
  rw [kdeRangeStart, exampleDMin]
  norm_num [jsOr]

theorem exampleRangeEnd : kdeRangeEnd 3 5 [0, 0, 0, 4] = 5 := by
  rw [kdeRangeEnd, exampleDMax]
  norm_num [jsOr]

theorem exampleRawLen : (kdeYValuesRaw 3 5 [0, 0, 0, 4]).length = 100 := by
  unfold kdeYValuesRaw
  rw [exampleRangeStart, exampleRangeEnd]
  exact d3range_length 0 5 (by norm_num)

theorem exampleYLen : (kdeYValues (kdeBandwidth 2) 5 [0, 0, 0, 4]).length = 100 := by
  rw [kdeBandwidth, show max (1 / 10 : ℚ) (2 * (3 / 2)) = 3 by norm_num]
  unfold kdeYValues
  rw [if_neg (by rw [exampleRawLen]; omega)]
  exact exampleRawLen

/-- Claim C4 counterexample: for the four samples 0, 0, 0, 4 the sample
standard deviation is exactly 2, the bandwidth is 3, and the group
holds the global maximum 4, so the chart maximum is the ceiling of 4.4,
namely 5; the evaluation range therefore ends at 5, not at the
sample maximum plus twice the bandwidth (10) stated by the claim. -/
theorem c4_counterexample :
    (2 : ℚ) ^ 2 = sampleVariance [0, 0, 0, 4] ∧
    kdeBandwidth 2 = 3 ∧
    yMaxGpuOf [0, 0, 0, 4] = 5 ∧
    kdeRangeEnd (kdeBandwidth 2) (yMaxGpuOf [0, 0, 0, 4]) [0, 0, 0, 4] = 5 ∧
    (5 : ℚ) ≠ 4 + kdeBandwidth 2 * 2 := by
  refine ⟨exampleVariance, exampleBandwidth, exampleYMax, ?_, ?_⟩
  · rw [exampleBandwidth, exampleYMax]
    exact exampleRangeEnd
  · rw [exampleBandwidth]
    norm_num

/-- Claim C4 (amended): for at least 2 samples, with sd the nonnegative
square root of the sample variance, the bandwidth is the maximum of the
0.1 floor and sd times 1.5, hence finite and positive even at zero
variance; the evaluation range runs from max(0, min - 2 bandwidth) up
to min(yMaxGpu, max + 2 bandwidth) — the upper end is additionally
clamped to the primary axis maximum — and a nondegenerate range is
sampled at exactly 100 points. -/
theorem c4_bandwidth_and_range (V : List ℚ) (sd yMaxGpu mn mx : ℚ)
    (h2 : 2 ≤ V.length) (hsd0 : 0 ≤ sd) (hsdv : sd ^ 2 = sampleVariance V)
    (hmn : d3min V = some mn) (hmx : d3max V = some mx) (hmxpos : 0 < mx) :
    kdeBandwidth sd = max (1 / 10) (sd * (3 / 2)) ∧
    1 / 10 ≤ kdeBandwidth sd ∧ 0 < kdeBandwidth sd ∧
    kdeRangeStart (kdeBandwidth sd) V = max 0 (mn - kdeBandwidth sd * 2) ∧
    kdeRangeEnd (kdeBandwidth sd) yMaxGpu V =
      min yMaxGpu (mx + kdeBandwidth sd * 2) ∧
    (kdeRangeStart (kdeBandwidth sd) V < kdeRangeEnd (kdeBandwidth sd) yMaxGpu V →
      (kdeYValuesRaw (kdeBandwidth sd) yMaxGpu V).length = 100) := by
  refine ⟨rfl, le_max_left _ _, kdeBandwidth_pos sd, ?_, ?_, ?_⟩
  · rw [kdeRangeStart, hmn]
    by_cases h0 : mn = 0
    · subst h0; norm_num [jsOr]
    · rw [show jsOr (some mn) 0 = mn by simp [jsOr, h0]]
  · rw [kdeRangeEnd, hmx, show jsOr (some mx) yMaxGpu = mx by simp [jsOr, hmxpos.ne']]
  · intro hlt
    unfold kdeYValuesRaw
    exact d3range_length _ _ hlt

/-- Claim C4 (amended) witness at the samples 0, 0, 0, 4 with standard
deviation 2 and chart maximum 5. -/
theorem c4_bandwidth_and_range_witness :
    kdeBandwidth 2 = max (1 / 10) (2 * (3 / 2)) ∧
    1 / 10 ≤ kdeBandwidth 2 ∧ 0 < kdeBandwidth 2 ∧
    kdeRangeStart (kdeBandwidth 2) [0, 0, 0, 4] = max 0 (0 - kdeBandwidth 2 * 2) ∧
    kdeRangeEnd (kdeBandwidth 2) 5 [0, 0, 0, 4] = min 5 (4 + kdeBandwidth 2 * 2) ∧
    (kdeRangeStart (kdeBandwidth 2) [0, 0, 0, 4] <
        kdeRangeEnd (kdeBandwidth 2) 5 [0, 0, 0, 4] →
      (kdeYValuesRaw (kdeBandwidth 2) 5 [0, 0, 0, 4]).length = 100) :=
  c4_bandwidth_and_range [0, 0, 0, 4] 2 5 0 4 (by decide) (by norm_num)
    exampleVariance exampleDMin exampleDMax (by norm_num)

theorem densityAt_eq_spec (bw : ℚ) (V : List ℚ) (x : ℚ) :
    densityAt bw V x = specDensityAt bw x V := by
  unfold densityAt specDensityAt d3meanQ kernelEpanechnikov
  rw [List.length_map]
  congr 1
  apply congrArg List.sum
  apply List.map_congr_left
  intro s _
  rw [pow_two]

/-- Claim C5: every point of the density curve carries the mean over the
samples of the Epanechnikov kernel at normalized offset (x - s) over
the bandwidth (the spec formula); a curve point survives the filter
exactly when its density is at least the threshold (1 percent of the
curve maximum); and the group result is the filtered points when at
least 2 remain, and a skip (none) otherwise. -/
theorem c5_kde_density_and_filter (sd yMaxGpu : ℚ) (V : List ℚ) (h2 : 2 ≤ V.length)
    (hy : 2 ≤ (kdeYValues (kdeBandwidth sd) yMaxGpu V).length) :
    (∀ p ∈ densityCurve (kdeBandwidth sd) (kdeYValues (kdeBandwidth sd) yMaxGpu V) V,
      p.2 = specDensityAt (kdeBandwidth sd) p.1 V) ∧
    (∀ p ∈ densityCurve (kdeBandwidth sd) (kdeYValues (kdeBandwidth sd) yMaxGpu V) V,
      (p ∈ filteredDensityPoints (densityCurve (kdeBandwidth sd)
          (kdeYValues (kdeBandwidth sd) yMaxGpu V) V) ↔
        densityThreshold (densityCurve (kdeBandwidth sd)
          (kdeYValues (kdeBandwidth sd) yMaxGpu V) V) ≤ p.2)) ∧
    estimateDensity sd yMaxGpu V =
      (if 2 ≤ (filteredDensityPoints (densityCurve (kdeBandwidth sd)
          (kdeYValues (kdeBandwidth sd) yMaxGpu V) V)).length then
        some (filteredDensityPoints (densityCurve (kdeBandwidth sd)
          (kdeYValues (kdeBandwidth sd) yMaxGpu V) V))
      else none) := by
  refine ⟨?_, ?_, ?_⟩
  · intro p hp
    obtain ⟨x, hx, rfl⟩ := List.mem_map.mp hp
    exact densityAt_eq_spec (kdeBandwidth sd) V x
  · intro p hp
    unfold filteredDensityPoints
    rw [List.mem_filter]
    simp [hp]
  · unfold estimateDensity
    rw [if_neg (not_lt.mpr h2), if_neg (not_le.mpr (kdeBandwidth_pos sd)),
      if_neg (not_lt.mpr hy)]
    by_cases hf : (filteredDensityPoints (densityCurve (kdeBandwidth sd)
        (kdeYValues (kdeBandwidth sd) yMaxGpu V) V)).length < 2
    · rw [if_pos hf, if_neg (by omega)]
    · rw [if_neg hf, if_pos (by omega)]

/-- Claim C5 witness at the samples 0, 0, 0, 4 with standard deviation 2
and chart maximum 5 (where the evaluation grid has 100 points). -/
theorem c5_kde_density_and_filter_witness :
    (∀ p ∈ densityCurve (kdeBandwidth 2) (kdeYValues (kdeBandwidth 2) 5 [0, 0, 0, 4])
        [0, 0, 0, 4],
      p.2 = specDensityAt (kdeBandwidth 2) p.1 [0, 0, 0, 4]) ∧
    (∀ p ∈ densityCurve (kdeBandwidth 2) (kdeYValues (kdeBandwidth 2) 5 [0, 0, 0, 4])
        [0, 0, 0, 4],
      (p ∈ filteredDensityPoints (densityCurve (kdeBandwidth 2)
          (kdeYValues (kdeBandwidth 2) 5 [0, 0, 0, 4]) [0, 0, 0, 4]) ↔
        densityThreshold (densityCurve (kdeBandwidth 2)
          (kdeYValues (kdeBandwidth 2) 5 [0, 0, 0, 4]) [0, 0, 0, 4]) ≤ p.2)) ∧
    estimateDensity 2 5 [0, 0, 0, 4] =
      (if 2 ≤ (filteredDensityPoints (densityCurve (kdeBandwidth 2)
          (kdeYValues (kdeBandwidth 2) 5 [0, 0, 0, 4]) [0, 0, 0, 4])).length then
        some (filteredDensityPoints (densityCurve (kdeBandwidth 2)
          (kdeYValues (kdeBandwidth 2) 5 [0, 0, 0, 4]) [0, 0, 0, 4]))
      else none) :=
  c5_kde_density_and_filter 2 5 [0, 0, 0, 4] (by decide)
    (by rw [exampleYLen]; omega)

theorem d3min_perm {xs ys : List ℚ} (h : xs.Perm ys) : d3min xs = d3min ys := by
  unfold d3min
  refine h.foldl_eq' (fun x _ y _ z => ?_) none
  cases z with
  | none => simp [d3step, min_comm]
  | some m => simp [d3step, min_right_comm]

theorem d3max_perm {xs ys : List ℚ} (h : xs.Perm ys) : d3max xs = d3max ys := by
  unfold d3max
  refine h.foldl_eq' (fun x _ y _ z => ?_) none
  cases z with
  | none => simp [d3step, max_comm]
  | some m => simp [d3step, max_assoc, max_comm, max_left_comm]

theorem d3meanQ_perm {xs ys : List ℚ} (h : xs.Perm ys) : d3meanQ xs = d3meanQ ys := by
  unfold d3meanQ
  rw [h.sum_eq, h.length_eq]

theorem sampleVariance_perm {xs ys : List ℚ} (h : xs.Perm ys) :
    sampleVariance xs = sampleVariance ys := by
  unfold sampleVariance
  rw [d3meanQ_perm h, (h.map (fun x => (x - d3meanQ ys) ^ 2)).sum_eq, h.length_eq]

theorem densityAt_perm (bw x : ℚ) {xs ys : List ℚ} (h : xs.Perm ys) :
    densityAt bw xs x = densityAt bw ys x := by
  unfold densityAt d3meanQ
  rw [(h.map (fun v => kernelEpanechnikov bw (x - v))).sum_eq,
    (h.map (fun v => kernelEpanechnikov bw (x - v))).length_eq]

theorem densityCurve_perm (bw : ℚ) (Y : List ℚ) {xs ys : List ℚ} (h : xs.Perm ys) :
    densityCurve bw Y xs = densityCurve bw Y ys := by
  unfold densityCurve
  have hd : ∀ x, densityAt bw xs x = densityAt bw ys x := fun x => densityAt_perm bw x h
  simp only [hd]

theorem kdeYValues_perm (bw yMax : ℚ) {xs ys : List ℚ} (h : xs.Perm ys) :
    kdeYValues bw yMax xs = kdeYValues bw yMax ys := by
  unfold kdeYValues kdeYValuesRaw kdeRangeStart kdeRangeEnd syntheticYValues
  rw [d3min_perm h, d3max_perm h, d3meanQ_perm h]

/-- Claim C9: the KDE pipeline is order-independent: sample lists that
are permutations of one another have the same sample variance (hence the
same bandwidth) and produce identical density output; determinism is
definitional since the embedding is a pure function. -/
theorem c9_estimate_density_perm (sd yMaxGpu : ℚ) (xs ys : List ℚ) (h : xs.Perm ys) :
    sampleVariance xs = sampleVariance ys ∧
    estimateDensity sd yMaxGpu xs = estimateDensity sd yMaxGpu ys := by
  refine ⟨sampleVariance_perm h, ?_⟩
  unfold estimateDensity
  rw [h.length_eq, kdeYValues_perm (kdeBandwidth sd) yMaxGpu h,
    densityCurve_perm (kdeBandwidth sd) (kdeYValues (kdeBandwidth sd) yMaxGpu ys) h]

/-- Claim C9 witness at the two orderings of the samples 1, 2. -/
theorem c9_estimate_density_perm_witness :
    sampleVariance [1, 2] = sampleVariance [2, 1] ∧
    estimateDensity 1 5 [1, 2] = estimateDensity 1 5 [2, 1] :=
  c9_estimate_density_perm 1 5 [1, 2] [2, 1] (List.Perm.swap 2 1 [])
